import Mathlib

/-!
Verification of the EXIF-metadata extraction and caption/display logic of
`create_album.py`.  The Python functions are shallowly embedded: Python's
dynamic values become the closed variant `PyVal`; CPython floats are modelled
by exact fractions (`Q` below), which agrees with float arithmetic on every
concrete input used in this development; Python dictionaries become
insertion-ordered association lists with first-occurrence lookup and
update-in-place semantics; a Python function that can raise is embedded as an
`Option`-valued function (`none` = exception escapes), and a bare
`try/except` around an expression is embedded by matching on that `Option`.
-/

namespace CreateAlbum

/-- Exact fractions modelling CPython float values.  The denominator is kept
positive by the smart constructor `qmk`, which every arithmetic operation
goes through; no gcd reduction is performed, so all operations are plain
integer arithmetic and evaluate inside the kernel. -/
structure Q : Type where
  num : Int
  den : Int
deriving DecidableEq, Repr

/-- Build a fraction with a positive denominator (a zero denominator is
never produced by the embedded program, whose division sites are all guarded;
it is mapped to `0` to keep the operations total). -/
def qmk (n d : Int) : Q :=
  if d = 0 then ⟨0, 1⟩ else if d < 0 then ⟨-n, -d⟩ else ⟨n, d⟩

instance (n : Nat) : OfNat Q n := ⟨⟨(n : Int), 1⟩⟩

instance : IntCast Q := ⟨fun n => ⟨n, 1⟩⟩

instance : Add Q := ⟨fun a b => qmk (a.num * b.den + b.num * a.den) (a.den * b.den)⟩

instance : Neg Q := ⟨fun a => ⟨-a.num, a.den⟩⟩

instance : Sub Q := ⟨fun a b => a + -b⟩

instance : Mul Q := ⟨fun a b => qmk (a.num * b.num) (a.den * b.den)⟩

instance : Div Q := ⟨fun a b => qmk (a.num * b.den) (a.den * b.num)⟩

/-- Strict comparison by cross multiplication (denominators positive). -/
def Q.blt (a b : Q) : Bool := decide (a.num * b.den < b.num * a.den)

instance : LT Q := ⟨fun a b => Q.blt a b = true⟩

instance (a b : Q) : Decidable (a < b) := inferInstanceAs (Decidable (Q.blt a b = true))

/-- Numeric equality by cross multiplication (Python `==` on numbers). -/
def Q.beq (a b : Q) : Bool := decide (a.num * b.den = b.num * a.den)

/-- Value-is-zero test (Python float truthiness / `ZeroDivisionError`
condition). -/
def Q.isZero (q : Q) : Bool := q.num == 0

/-- Floor of a fraction as an integer. -/
def Q.floorI (q : Q) : Int := q.num.fdiv q.den

/-- Truncation toward zero: the behaviour of Python's `int(float)`. -/
def Q.truncI (q : Q) : Int := q.num.tdiv q.den

/-- `10 ^ n` on integers by structural recursion. -/
def pow10 : Nat → Int
  | 0 => 1
  | n + 1 => 10 * pow10 n

/-- Round half to even: the behaviour of Python's `round` and of the
rounding performed by `format(x, '.Nf')` (on values exactly representable,
which covers every concrete value appearing below). -/
def qRoundHalfEven (q : Q) : Int :=
  let f := q.floorI
  let fr : Q := q - ⟨f, 1⟩
  if Q.blt fr ⟨1, 2⟩ then f
  else if Q.blt ⟨1, 2⟩ fr then f + 1
  else if f % 2 = 0 then f else f + 1

/-- The whitespace stripped by Python's `str.strip()` (restricted to the
ASCII whitespace occurring in EXIF strings). -/
def isStripChar (c : Char) : Bool :=
  c == ' ' || c == '\t' || c == '\n' || c == '\r' || c == '\x0b' || c == '\x0c'

/-- Python's `str.strip()`: remove leading and trailing whitespace. -/
def sTrim (s : String) : String :=
  String.mk (((s.data.dropWhile isStripChar).reverse.dropWhile isStripChar).reverse)

/-- Split a character list at every occurrence of `c` (auxiliary for
`splitChar`). -/
def splitCharAux (c : Char) : List Char → List Char → List String
  | [], acc => [String.mk acc.reverse]
  | x :: xs, acc =>
    if x == c then String.mk acc.reverse :: splitCharAux c xs []
    else splitCharAux c xs (x :: acc)

/-- Split a string at every occurrence of a separator character (the
behaviour of `str.split(sep)` for the one-character separators used by the
script's `strptime` formats). -/
def splitChar (c : Char) (s : String) : List String := splitCharAux c s.data []

/-- All characters are ASCII digits. -/
def allDigits : List Char → Bool
  | [] => true
  | c :: cs => c.isDigit && allDigits cs

/-- Accumulate the value of a digit string. -/
def digitsToNat : List Char → Nat → Nat
  | [], acc => acc
  | c :: cs, acc => digitsToNat cs (acc * 10 + (c.toNat - 48))

/-- Left-pad a string with `'0'` up to the given length. -/
def padZeros (width : Nat) (s : String) : String :=
  if s.data.length < width then String.mk (List.replicate (width - s.data.length) '0') ++ s else s

/-- Two-digit zero-padded rendering of a natural number (strftime `%m`,
`%d`, `%H`, `%M`, `%S`). -/
def pad2 (n : Nat) : String := padZeros 2 (toString n)

/-- Python's fixed-point float formatting `f"{q:.precf}"`: round half to
even at `prec` decimal places and render with exactly `prec` fractional
digits (no decimal point when `prec = 0`). -/
def formatFixed (prec : Nat) (q : Q) : String :=
  let r : Int := qRoundHalfEven ⟨q.num * pow10 prec, q.den⟩
  let sign := if r < 0 then "-" else ""
  let n : Nat := r.natAbs
  let ip := n / (pow10 prec).natAbs
  let fp := n % (pow10 prec).natAbs
  sign ++ toString ip ++ (if prec = 0 then "" else "." ++ padZeros prec (toString fp))

/-- Keys of Python dictionaries as used by the script: either a string or an
integer (raw EXIF tag id). -/
inductive Key : Type where
  | s : String → Key
  | n : Int → Key
deriving DecidableEq, Repr

mutual
/-- Closed variant of the Python values flowing through the script: `none`
(Python `None`), integers, floats (modelled as exact fractions), EXIF
rationals (`IFDRational`, a numerator/denominator pair), strings, byte
strings (carrying the result of an attempted UTF-8 decode and the textual
`str()` representation), lists, tuples and dictionaries. -/
inductive PyVal : Type where
  | none : PyVal
  | int : Int → PyVal
  | float : Q → PyVal
  | rat : Int → Int → PyVal
  | str : String → PyVal
  | bytes : Option String → String → PyVal
  | list : PyList → PyVal
  | tuple : PyList → PyVal
  | dict : PyDict → PyVal
deriving DecidableEq

/-- Python lists/tuples of `PyVal`s. -/
inductive PyList : Type where
  | nil : PyList
  | cons : PyVal → PyList → PyList
deriving DecidableEq

/-- Python dictionaries with `PyVal` values, as ordered association lists. -/
inductive PyDict : Type where
  | nil : PyDict
  | cons : Key → PyVal → PyDict → PyDict
deriving DecidableEq
end

mutual
/-- `convert_to_serializable` (create_album.py lines 35-53).  An object with
`numerator`/`denominator` attributes (a Python `int` or an `IFDRational`)
becomes `float(numerator)/float(denominator)`, with `ZeroDivisionError`
caught and turned into the integer `0`; lists and tuples are normalized
element-wise into lists; dictionaries value-wise; bytes are UTF-8 decoded
with `str(obj)` as fallback; everything else passes through. -/
def convert_to_serializable : PyVal → PyVal
  | .int n => .float ((n : Q) / ((1 : Int) : Q))
  | .rat n d => if d = 0 then .int 0 else .float ((n : Q) / (d : Q))
  | .list xs => .list (convList xs)
  | .tuple xs => .list (convList xs)
  | .dict kvs => .dict (convDict kvs)
  | .bytes dec rep => .str (dec.getD rep)
  | .none => .none
  | .float q => .float q
  | .str s => .str s

/-- Element-wise `convert_to_serializable` over a Python list. -/
def convList : PyList → PyList
  | .nil => .nil
  | .cons x xs => .cons (convert_to_serializable x) (convList xs)

/-- Value-wise `convert_to_serializable` over a Python dict (keys kept). -/
def convDict : PyDict → PyDict
  | .nil => .nil
  | .cons k v kvs => .cons k (convert_to_serializable v) (convDict kvs)
end

/-- Python's `float(x)` builtin on the tag values handled by the script:
ints and floats convert, an `IFDRational` converts via its ratio and raises
`ZeroDivisionError` on a zero denominator; `None`, byte strings and
containers raise `TypeError` (`none` here).  Numeric text strings (which
CPython's `float` would parse) do not occur as numeric tag values in this
program and are modelled as failing. -/
def pyFloat : PyVal → Option Q
  | .int n => some ((n : Int) : Q)
  | .float q => some q
  | .rat n d => if d = 0 then Option.none else some ((n : Q) / (d : Q))
  | _ => Option.none

/-- Python's `str()` of a float.  Integral floats render as `"n.0"` (the
only case the script's outputs depend on); the rendering of non-integral
floats is abstracted. -/
def floatStr (q : Q) : String :=
  if q.num.tmod q.den = 0 then toString (q.num.tdiv q.den) ++ ".0"
  else toString q.num ++ "∕" ++ toString q.den

/-- Python's `str()` builtin on the values the script passes to it.  The
renderings of containers and of `IFDRational` are abstracted (they never
parse as dates and never reach a displayed field in this development). -/
def pyStr : PyVal → String
  | .none => "None"
  | .int n => toString n
  | .float q => floatStr q
  | .rat n d => toString n ++ "∕" ++ toString d
  | .str s => s
  | .bytes _ rep => rep
  | .list _ => "<list>"
  | .tuple _ => "<tuple>"
  | .dict _ => "<dict>"

/-- Python truthiness (`bool(x)`): `None`, zero numbers, empty strings and
empty containers are falsy. -/
def pyTruthy : PyVal → Bool
  | .none => false
  | .int n => n != 0
  | .float q => !q.isZero
  | .rat n _ => n != 0
  | .str s => s != ""
  | .bytes _ _ => true
  | .list .nil => false
  | .list _ => true
  | .tuple .nil => false
  | .tuple _ => true
  | .dict .nil => false
  | .dict _ => true

/-- `safe_float` (create_album.py lines 93-100): objects with
`numerator`/`denominator` attributes (ints, rationals) convert via their
ratio — with no inner `ZeroDivisionError` handler, so a zero denominator
falls to the blanket `except` and yields `None`; otherwise `float(value)`;
any failure yields `None`. -/
def safe_float : PyVal → Option Q
  | .int n => some ((n : Int) : Q)
  | .rat n d => if d = 0 then Option.none else some ((n : Q) / (d : Q))
  | v => pyFloat v

/-- `format_exposure_time` (create_album.py lines 82-91): convert to float;
below 1 second render `"1/" ++ int(1/t)` (truncation toward zero) — when
`t = 0` the division raises and the blanket `except` returns `str(t)`;
otherwise render with one decimal place; if the float conversion itself
fails, return `str(exposure_time)`. -/
def format_exposure_time (exposure_time : PyVal) : String :=
  match pyFloat exposure_time with
  | some q =>
    if q < 1 then
      if q.isZero then pyStr exposure_time
      else "1/" ++ toString (Q.truncI (1 / q))
    else formatFixed 1 q
  | Option.none => pyStr exposure_time

/-- `decimal_coords` (create_album.py lines 55-63): read the first three
elements of the sequence, convert each with `float`, combine as
`deg + min/60 + sec/3600`, and negate when `ref == "S" or ref == "W"`
(a non-string `ref` simply compares unequal); any failure — too few
elements, non-sequence input, unconvertible element — is caught by the
blanket `except` and yields `None`. -/
def decimal_coords (coords : PyVal) (ref : PyVal) : Option Q :=
  let comps : Option (Q × Q × Q) :=
    match coords with
    | .list (.cons c0 (.cons c1 (.cons c2 _))) =>
      match pyFloat c0, pyFloat c1, pyFloat c2 with
      | some d, some m, some s => some (d, m, s)
      | _, _, _ => Option.none
    | .tuple (.cons c0 (.cons c1 (.cons c2 _))) =>
      match pyFloat c0, pyFloat c1, pyFloat c2 with
      | some d, some m, some s => some (d, m, s)
      | _, _, _ => Option.none
    | _ => Option.none
  match comps with
  | some (d, m, s) =>
    let dd := d + m / 60 + s / 3600
    let neg : Bool := match ref with
      | .str r => r == "S" || r == "W"
      | _ => false
    some (if neg then -dd else dd)
  | Option.none => Option.none

/-- The script's working dictionaries (`exif_dict`, `gps_info`): ordered
association lists from keys to values. -/
abbrev Dict := List (Key × PyVal)

/-- Python dict lookup `d.get(k)` / `d[k]`: first (unique) matching key. -/
def dlookup (d : Dict) (k : Key) : Option PyVal :=
  match d with
  | [] => Option.none
  | (k₀, v) :: rest => if k₀ = k then some v else dlookup rest k

/-- Python dict assignment `d[k] = v`: update the existing binding in place,
or append a new one. -/
def dset (d : Dict) (k : Key) (v : PyVal) : Dict :=
  match d with
  | [] => [(k, v)]
  | (k₀, v₀) :: rest => if k₀ = k then (k₀, v) :: rest else (k₀, v₀) :: dset rest k v

/-- `d.get(k)` with `None` default, the way the script consumes it before a
`float()`/`is not None` test. -/
def vGet (d : Dict) (k : Key) : PyVal := (dlookup d k).getD .none

/-- Truthiness of `d.get(k)` (missing key gives `None`, which is falsy). -/
def tGet (d : Dict) (k : Key) : Bool :=
  match dlookup d k with
  | some v => pyTruthy v
  | Option.none => false

/-- `d.get(k)` when it is truthy, the pervasive `if exif_data.get(k):`
pattern of the script. -/
def truthyGet (d : Dict) (k : Key) : Option PyVal :=
  match dlookup d k with
  | some v => if pyTruthy v then some v else Option.none
  | Option.none => Option.none

/-- `get_gps_coordinates` (create_album.py lines 65-80): require all four
sub-tags to be present and truthy, convert both coordinates, and return the
pair only when both conversions succeed; otherwise `(None, None)`. -/
def get_gps_coordinates (gps_info : Dict) : Option Q × Option Q :=
  if tGet gps_info (.s "GPSLatitude") && tGet gps_info (.s "GPSLatitudeRef") &&
     tGet gps_info (.s "GPSLongitude") && tGet gps_info (.s "GPSLongitudeRef") then
    match decimal_coords (vGet gps_info (.s "GPSLatitude")) (vGet gps_info (.s "GPSLatitudeRef")),
          decimal_coords (vGet gps_info (.s "GPSLongitude")) (vGet gps_info (.s "GPSLongitudeRef")) with
    | some lat, some lon => (some lat, some lon)
    | _, _ => (Option.none, Option.none)
  else (Option.none, Option.none)

/-- The slice of `PIL.ExifTags.TAGS` (external library data) relevant to
this program: tag ids resolved by the extraction loop.  Unlisted ids behave
exactly like every id outside the table — they pass through unresolved. -/
def TAGS (id : Int) : Option String :=
  if id = 271 then some "Make"
  else if id = 272 then some "Model"
  else if id = 305 then some "Software"
  else if id = 306 then some "DateTime"
  else if id = 33434 then some "ExposureTime"
  else if id = 33437 then some "FNumber"
  else if id = 34853 then some "GPSInfo"
  else if id = 34855 then some "ISOSpeedRatings"
  else if id = 36867 then some "DateTimeOriginal"
  else if id = 37386 then some "FocalLength"
  else Option.none

/-- The slice of `PIL.ExifTags.GPSTAGS` (external library data) relevant to
this program. -/
def GPSTAGS (id : Int) : Option String :=
  if id = 1 then some "GPSLatitudeRef"
  else if id = 2 then some "GPSLatitude"
  else if id = 3 then some "GPSLongitudeRef"
  else if id = 4 then some "GPSLongitude"
  else Option.none

/-- `TAGS.get(tag_id, tag_id)` (create_album.py line 119): resolve a tag id
to its symbolic name, unknown ids pass through as their raw key. -/
def resolveTag (id : Int) : Key :=
  match TAGS id with
  | some nm => .s nm
  | Option.none => .n id

/-- `GPSTAGS.get(gps_tag_id, gps_tag_id)` (create_album.py line 126). -/
def resolveGpsTag (k : Key) : Key :=
  match k with
  | .n id =>
    match GPSTAGS id with
    | some nm => .s nm
    | Option.none => .n id
  | .s s => .s s

/-- Fold of the GPS sub-entries into `gps_info` (the body of the loop at
create_album.py lines 125-128). -/
def gpsMergeDict (gi : Dict) : PyDict → Dict
  | .nil => gi
  | .cons k v rest => gpsMergeDict (dset gi (resolveGpsTag k) (convert_to_serializable v)) rest

/-- The inner GPS loop of `extract_exif_data` (create_album.py lines
123-130): when the `GPSInfo` value is a mapping, every sub-entry is resolved
via `GPSTAGS` and normalized into `gps_info`; iterating a non-mapping raises
before anything is recorded and the blanket `except: pass` leaves `gps_info`
unchanged. -/
def gps_merge (gi : Dict) (data : PyVal) : Dict :=
  match data with
  | .dict kvs => gpsMergeDict gi kvs
  | _ => gi

/-- The main tag loop of `extract_exif_data` (create_album.py lines
118-134): each raw entry either feeds the GPS collector (when its resolved
name is `"GPSInfo"`) or is normalized into `exif_dict`. -/
def build_dicts : List (Int × PyVal) → Dict → Dict → Dict × Dict
  | [], ed, gi => (ed, gi)
  | (id, data) :: rest, ed, gi =>
    if resolveTag id = Key.s "GPSInfo" then
      build_dicts rest ed (gps_merge gi data)
    else
      build_dicts rest (dset ed (resolveTag id) (convert_to_serializable data)) gi

/-- A parsed calendar timestamp, as produced by `datetime.strptime`. -/
structure DT : Type where
  y : Nat
  mo : Nat
  d : Nat
  hh : Nat
  mi : Nat
  ss : Nat
deriving DecidableEq, Repr

/-- One numeric `strptime` field: 1 to `maxLen` digits, value in
`[lo, hi]`. -/
def parseField (maxLen lo hi : Nat) (s : String) : Option Nat :=
  if 1 ≤ s.data.length ∧ s.data.length ≤ maxLen ∧ allDigits s.data then
    let n := digitsToNat s.data 0
    if lo ≤ n ∧ n ≤ hi then some n else Option.none
  else Option.none

/-- The `strptime` `%Y` field: exactly four digits; `datetime` additionally
requires the year to be at least 1. -/
def parseYear (s : String) : Option Nat :=
  if s.data.length = 4 ∧ allDigits s.data then
    let n := digitsToNat s.data 0
    if 1 ≤ n then some n else Option.none
  else Option.none

/-- Gregorian leap-year test, as used by `datetime`'s day-of-month
validation. -/
def isLeap (y : Nat) : Bool := y % 4 == 0 && (y % 100 != 0 || y % 400 == 0)

/-- Days of each month in the proleptic Gregorian calendar. -/
def daysInMonth (y mo : Nat) : Nat :=
  if mo = 2 then (if isLeap y then 29 else 28)
  else if mo = 4 ∨ mo = 6 ∨ mo = 9 ∨ mo = 11 then 30
  else 31

/-- `datetime.strptime(s, fmt)` where `fmt` is `"%Y.%m.%d %H:%M:%S"` with
`.` the one-character date separator `sep` (`":"` for the raw EXIF format,
`"-"` for the script's normalized format): the whole string must be
consumed, fields parse as in CPython's `_strptime` tables, and the
resulting date must be a valid calendar date (else `datetime` raises and
the result is `None`). -/
def parseDT (sep : Char) (s : String) : Option DT :=
  match splitChar ' ' s with
  | [datePart, timePart] =>
    match splitChar sep datePart, splitChar ':' timePart with
    | [ys, ms, ds], [hs, mins, secs] =>
      match parseYear ys, parseField 2 1 12 ms, parseField 2 1 31 ds,
            parseField 2 0 23 hs, parseField 2 0 59 mins, parseField 2 0 59 secs with
      | some y, some mo, some d, some hh, some mi, some sec =>
        if d ≤ daysInMonth y mo then some ⟨y, mo, d, hh, mi, sec⟩ else Option.none
      | _, _, _, _, _, _ => Option.none
    | _, _ => Option.none
  | _ => Option.none

/-- `dt.strftime("%Y-%m-%d %H:%M:%S")` (create_album.py line 142). -/
def fmtStd (dt : DT) : String :=
  toString dt.y ++ "-" ++ pad2 dt.mo ++ "-" ++ pad2 dt.d ++ " " ++
  pad2 dt.hh ++ ":" ++ pad2 dt.mi ++ ":" ++ pad2 dt.ss

/-- The date normalization step of `extract_exif_data` (create_album.py
lines 136-144): when a truthy `DateTimeOriginal` is present, try to parse
`str(value)` in the raw EXIF format and, on success, overwrite the field
with the normalized rendering; on failure only a diagnostic is printed and
the dictionary — including the raw, unparsed value — is left untouched. -/
def date_step (ed : Dict) : Dict :=
  match dlookup ed (Key.s "DateTimeOriginal") with
  | some v =>
    if pyTruthy v then
      match parseDT ':' (pyStr v) with
      | some dt => dset ed (Key.s "DateTimeOriginal") (.str (fmtStd dt))
      | Option.none => ed
    else ed
  | Option.none => ed

/-- The `GPS` entry built by `extract_exif_data` (create_album.py lines
150-154): always all three of latitude, longitude and the rendered
coordinate pair. -/
def gpsShape (lat lon : Q) : PyVal :=
  .dict (.cons (Key.s "latitude") (.float lat)
        (.cons (Key.s "longitude") (.float lon)
        (.cons (Key.s "coordinates")
               (.str (formatFixed 6 lat ++ ", " ++ formatFixed 6 lon)) .nil)))

/-- The GPS step of `extract_exif_data` (create_album.py lines 146-154):
only when `gps_info` is non-empty and both coordinates convert is a `GPS`
entry added. -/
def gps_step (gi : Dict) (ed : Dict) : Dict :=
  if gi.isEmpty then ed
  else
    match get_gps_coordinates gi with
    | (some lat, some lon) => dset ed (Key.s "GPS") (gpsShape lat lon)
    | _ => ed

/-- The exposure step of `extract_exif_data` (create_album.py lines
156-159): guarded by `is not None` (not truthiness). -/
def exposure_step (ed : Dict) : Dict :=
  match dlookup ed (Key.s "ExposureTime") with
  | some PyVal.none => ed
  | some v => dset ed (Key.s "ExposureTimeFormatted") (.str (format_exposure_time v))
  | Option.none => ed

/-- The focal-length step of `extract_exif_data` (create_album.py lines
161-164). -/
def focal_step (ed : Dict) : Dict :=
  match safe_float (vGet ed (Key.s "FocalLength")) with
  | some f => dset ed (Key.s "FocalLengthFormatted") (.str (formatFixed 0 f ++ "mm"))
  | Option.none => ed

/-- The aperture step of `extract_exif_data` (create_album.py lines
166-169). -/
def fnumber_step (ed : Dict) : Dict :=
  match safe_float (vGet ed (Key.s "FNumber")) with
  | some f => dset ed (Key.s "FNumberFormatted") (.str ("f/" ++ formatFixed 1 f))
  | Option.none => ed

/-- One iteration of the string-field cleanup loop of `extract_exif_data`
(create_album.py lines 171-174): a present, truthy value is replaced by
`str(value).strip()`. -/
def cleanup_one (ed : Dict) (k : Key) : Dict :=
  match dlookup ed k with
  | some v => if pyTruthy v then dset ed k (.str (sTrim (pyStr v))) else ed
  | Option.none => ed

/-- The cleanup loop over `Make`, `Model`, `Software`. -/
def cleanup_step (ed : Dict) : Dict :=
  cleanup_one (cleanup_one (cleanup_one ed (Key.s "Make")) (Key.s "Model")) (Key.s "Software")

/-- The outcome of `Image.open(path).getexif()` for an input image path:
the open/decode raised, the image has no EXIF block (falsy `exifdata`), or
a raw tag map keyed by integer tag ids. -/
inductive ImageResult : Type where
  | openFail : ImageResult
  | noExif : ImageResult
  | exif : List (Int × PyVal) → ImageResult

/-- `extract_exif_data` (create_album.py lines 102-180): an unreadable image
or absent EXIF yields the empty record; otherwise the tag loop builds
`exif_dict` and `gps_info`, and the date, GPS, exposure, focal-length,
aperture and cleanup steps run in sequence.  The whole body sits under a
blanket `except` returning `{}`, and each fallible step has its own local
handler, so the function always returns a record. -/
def extract_exif_data : ImageResult → Dict
  | .openFail => []
  | .noExif => []
  | .exif tags =>
    cleanup_step (fnumber_step (focal_step (exposure_step
      (gps_step (build_dicts tags [] []).2 (date_step (build_dicts tags [] []).1)))))

/-- `exif_data.get(k, '').strip()` (create_album.py lines 190-191): a
missing key defaults to `""`; `.strip()` succeeds only on strings —
a present non-string value raises `AttributeError` (`none`). -/
def strip_get (d : Dict) (k : Key) : Option String :=
  match (dlookup d k).getD (.str "") with
  | .str s => some (sTrim s)
  | _ => Option.none

/-- `sep.join(strs)` on a list of actual strings. -/
def sIntercalate (sep : String) : List String → String
  | [] => ""
  | a :: rest =>
    match rest with
    | [] => a
    | _ :: _ => a ++ sep ++ sIntercalate sep rest

/-- `sep.join(parts)`: raises `TypeError` (`none`) as soon as any element
is not a string. -/
def joinStrs (sep : String) : List PyVal → Option String
  | [] => some ""
  | v :: rest =>
    match v with
    | .str s =>
      match rest with
      | [] => some s
      | _ :: _ =>
        match joinStrs sep rest with
        | some r => some (s ++ sep ++ r)
        | Option.none => Option.none
    | _ => Option.none

/-- Lookup in a Python dict value (`v[k]`). -/
def pdLookup : PyDict → Key → Option PyVal
  | .nil, _ => Option.none
  | .cons k₀ v rest, k => if k₀ = k then some v else pdLookup rest k

/-- One conditional `params.append(...)` of the display code: a truthy
value appends one rendered element, an absent/falsy one appends nothing. -/
def appendIf (v : Option PyVal) (f : PyVal → PyVal) : List PyVal :=
  match v with
  | some x => [f x]
  | Option.none => []

/-- The camera section (create_album.py lines 189-194): present only when
both the stripped make and the stripped model are non-empty. -/
def camera_section (make model : String) : List String :=
  if make ≠ "" ∧ model ≠ "" then ["📷 " ++ sTrim (make ++ " " ++ model)] else []

/-- The shooting-parameter section (create_album.py lines 196-208): when
any parameter is present, pipe-join them — raising (`none`) if a non-string
slipped in. -/
def params_section (params : List PyVal) : Option (List String) :=
  if params.isEmpty then some []
  else
    match joinStrs " | " params with
    | some j => some ["⚙️ " ++ j]
    | Option.none => Option.none

/-- The timestamp section (create_album.py lines 210-212). -/
def date_section (v : Option PyVal) : List String :=
  match v with
  | some v => ["📅 " ++ pyStr v]
  | Option.none => []

/-- The location section (create_album.py lines 214-217): a truthy `GPS`
value is indexed at `'coordinates'`, raising (`none`) when it is not a
mapping carrying that key. -/
def gps_section (v : Option PyVal) : Option (List String) :=
  match v with
  | some (.dict kvs) =>
    match pdLookup kvs (Key.s "coordinates") with
    | some c => some ["📍 " ++ pyStr c]
    | Option.none => Option.none
  | some _ => Option.none
  | Option.none => some []

/-- The body of `format_exif_for_display` after the `Make`/`Model` strips
succeeded (create_album.py lines 187-219): build the four sections in
order and join the non-empty ones with line breaks. -/
def display_after_strip (d : Dict) (make model : String) : Option String :=
  let cameraSec := camera_section make model
  let params :=
    appendIf (truthyGet d (Key.s "FNumberFormatted")) (fun v => v) ++
    appendIf (truthyGet d (Key.s "ExposureTimeFormatted"))
      (fun v => PyVal.str (pyStr v ++ "s")) ++
    appendIf (truthyGet d (Key.s "ISOSpeedRatings"))
      (fun v => PyVal.str ("ISO" ++ pyStr v)) ++
    appendIf (truthyGet d (Key.s "FocalLengthFormatted")) (fun v => v)
  match params_section params with
  | Option.none => Option.none
  | some paramsSec =>
    let dateSec := date_section (truthyGet d (Key.s "DateTimeOriginal"))
    match gps_section (truthyGet d (Key.s "GPS")) with
    | Option.none => Option.none
    | some gpsSec => some (sIntercalate "\n" (cameraSec ++ paramsSec ++ dateSec ++ gpsSec))

/-- The `Make`/`Model` strip gate of the display code (create_album.py
lines 190-191): `.strip()` on a present non-string value raises. -/
def format_display_core (exif_data : Dict) : Option String :=
  match strip_get exif_data (Key.s "Make"), strip_get exif_data (Key.s "Model") with
  | some make, some model => display_after_strip exif_data make model
  | _, _ => Option.none

/-- `format_exif_for_display` (create_album.py lines 182-219): an empty
(falsy) record short-circuits to `""`; otherwise the body
`format_display_core` runs. -/
def format_exif_for_display (exif_data : Dict) : Option String :=
  if exif_data.isEmpty then some "" else format_display_core exif_data

/-- `dt.strftime("%m月%d日 %H:%M")` (create_album.py line 313). -/
def fmtCaption (dt : DT) : String :=
  pad2 dt.mo ++ "月" ++ pad2 dt.d ++ "日 " ++ pad2 dt.hh ++ ":" ++ pad2 dt.mi

/-- The per-photo default caption of `create_album` (create_album.py lines
308-315, zero-based photo index `i`): start from `"照片 " ++ (i+1)`; when a
truthy `DateTimeOriginal` is present, try to parse it in the normalized
format `"%Y-%m-%d %H:%M:%S"` and on success render the short date/time
caption; any failure (malformed string, non-string value) is swallowed by
the `except: pass` and the numbered fallback stands. -/
def default_caption (exif_data : Dict) (i : Nat) : String :=
  let fallback := "照片 " ++ toString (i + 1)
  match truthyGet exif_data (Key.s "DateTimeOriginal") with
  | some (.str s) =>
    match parseDT '-' s with
    | some dt => fmtCaption dt
    | Option.none => fallback
  | some _ => fallback
  | Option.none => fallback

/-- The numeric view Python's `==` takes of a value: ints and floats
compare by value, an `IFDRational` by its ratio (one with a zero
denominator compares like the non-number it is). -/
def numVal : PyVal → Option Q
  | .int n => some ((n : Int) : Q)
  | .float q => some q
  | .rat n d => if d = 0 then Option.none else some ((n : Q) / (d : Q))
  | _ => Option.none

/-- Python `==` on non-container values: cross-type numeric comparison,
otherwise same-type structural comparison (`str == bytes` is `False` in
Python 3). -/
def pyEqAtom (a b : PyVal) : Bool :=
  match numVal a, numVal b with
  | some x, some y => Q.beq x y
  | _, _ =>
    match a, b with
    | .none, .none => true
    | .str s, .str t => s == t
    | .bytes d₁ r₁, .bytes d₂ r₂ => d₁ == d₂ && r₁ == r₂
    | _, _ => false

mutual
/-- Python `==`, element-wise on lists/tuples and entry-wise on
dictionaries.  On dictionaries this compares entries in order, which is a
sufficient condition for Python's order-insensitive dict equality; every
positive equality proved below is therefore a true Python `==` fact. -/
def pyEq : PyVal → PyVal → Bool
  | .list xs, .list ys => pyEqList xs ys
  | .tuple xs, .tuple ys => pyEqList xs ys
  | .dict xs, .dict ys => pyEqDict xs ys
  | a, b => pyEqAtom a b

/-- Element-wise Python `==` on lists. -/
def pyEqList : PyList → PyList → Bool
  | .nil, .nil => true
  | .cons x xs, .cons y ys => pyEq x y && pyEqList xs ys
  | _, _ => false

/-- Entry-wise Python `==` on dictionaries (same key order). -/
def pyEqDict : PyDict → PyDict → Bool
  | .nil, .nil => true
  | .cons k₁ v₁ xs, .cons k₂ v₂ ys => k₁ == k₂ && pyEq v₁ v₂ && pyEqDict xs ys
  | _, _ => false
end

theorem Q.beq_self (q : Q) : Q.beq q q = true := by
  simp [Q.beq]

mutual
/-- A second pass of the serialization normalizer returns a value Python
deems equal: on the base cases because the first pass already produced a
fixed point (floats, strings pass through), and on a zero-denominator
rational because the `0` of the first pass re-normalizes to `0.0`, which is
`==` to `0`. -/
theorem convIdemVal : (x : PyVal) →
    pyEq (convert_to_serializable (convert_to_serializable x)) (convert_to_serializable x) = true
  | .none => by simp [convert_to_serializable, pyEq, pyEqAtom, numVal]
  | .int n => by simp [convert_to_serializable, pyEq, pyEqAtom, numVal, Q.beq_self]
  | .float q => by simp [convert_to_serializable, pyEq, pyEqAtom, numVal, Q.beq_self]
  | .str s => by simp [convert_to_serializable, pyEq, pyEqAtom, numVal]
  | .bytes dec rep => by simp [convert_to_serializable, pyEq, pyEqAtom, numVal]
  | .rat n d => by
    by_cases hd : d = 0
    · subst hd
      simp [convert_to_serializable, pyEq, pyEqAtom, numVal, Q.beq]
      decide
    · simp [convert_to_serializable, hd, pyEq, pyEqAtom, numVal, Q.beq_self]
  | .list xs => by
    simp [convert_to_serializable, pyEq]
    exact convIdemList xs
  | .tuple xs => by
    simp [convert_to_serializable, pyEq]
    exact convIdemList xs
  | .dict kvs => by
    simp [convert_to_serializable, pyEq]
    exact convIdemDict kvs

/-- Idempotence of the normalizer over list elements. -/
theorem convIdemList : (xs : PyList) → pyEqList (convList (convList xs)) (convList xs) = true
  | .nil => rfl
  | .cons x xs => by
    simp [convList, pyEqList]
    exact ⟨convIdemVal x, convIdemList xs⟩

/-- Idempotence of the normalizer over dictionary entries. -/
theorem convIdemDict : (kvs : PyDict) → pyEqDict (convDict (convDict kvs)) (convDict kvs) = true
  | .nil => rfl
  | .cons k v kvs => by
    simp [convDict, pyEqDict]
    exact ⟨convIdemVal v, convIdemDict kvs⟩
end

theorem dlookup_dset (d : Dict) (k : Key) (v : PyVal) (k' : Key) :
    dlookup (dset d k v) k' = if k = k' then some v else dlookup d k' := by
  induction d with
  | nil => simp [dset, dlookup]
  | cons hd tl ih =>
    obtain ⟨k₀, v₀⟩ := hd
    by_cases h : k₀ = k
    · subst h
      by_cases h2 : k₀ = k' <;> simp [dset, dlookup, h2]
    · have hne : ¬k = k₀ := fun he => h he.symm
      by_cases h2 : k₀ = k'
      · subst h2
        simp [dset, dlookup, h, hne]
      · simp [dset, dlookup, h, h2, ih]

/-- The date step touches no key other than `DateTimeOriginal`. -/
theorem dlookup_date_step (ed : Dict) (k : Key) (h : k ≠ Key.s "DateTimeOriginal") :
    dlookup (date_step ed) k = dlookup ed k := by
  unfold date_step
  cases hdl : dlookup ed (Key.s "DateTimeOriginal") with
  | none => rfl
  | some v =>
    by_cases ht : pyTruthy v
    · simp only [ht, if_true]
      cases parseDT ':' (pyStr v) with
      | none => rfl
      | some dt => rw [dlookup_dset, if_neg (Ne.symm h)]
    · simp [ht]

/-- The GPS step touches no key other than `GPS`. -/
theorem dlookup_gps_step (gi ed : Dict) (k : Key) (h : k ≠ Key.s "GPS") :
    dlookup (gps_step gi ed) k = dlookup ed k := by
  unfold gps_step
  by_cases hg : gi.isEmpty
  · simp [hg]
  · rw [if_neg hg]
    cases hc : get_gps_coordinates gi with
    | mk a b =>
      cases a with
      | none => rfl
      | some lat =>
        cases b with
        | none => rfl
        | some lon => rw [dlookup_dset, if_neg (Ne.symm h)]

/-- The exposure step touches no key other than `ExposureTimeFormatted`. -/
theorem dlookup_exposure_step (ed : Dict) (k : Key) (h : k ≠ Key.s "ExposureTimeFormatted") :
    dlookup (exposure_step ed) k = dlookup ed k := by
  unfold exposure_step
  cases hdl : dlookup ed (Key.s "ExposureTime") with
  | none => rfl
  | some v =>
    cases v
    case none => rfl
    all_goals rw [dlookup_dset, if_neg (Ne.symm h)]

/-- The focal-length step touches no key other than `FocalLengthFormatted`. -/
theorem dlookup_focal_step (ed : Dict) (k : Key) (h : k ≠ Key.s "FocalLengthFormatted") :
    dlookup (focal_step ed) k = dlookup ed k := by
  unfold focal_step
  cases safe_float (vGet ed (Key.s "FocalLength")) with
  | none => rfl
  | some f => rw [dlookup_dset, if_neg (Ne.symm h)]

/-- The aperture step touches no key other than `FNumberFormatted`. -/
theorem dlookup_fnumber_step (ed : Dict) (k : Key) (h : k ≠ Key.s "FNumberFormatted") :
    dlookup (fnumber_step ed) k = dlookup ed k := by
  unfold fnumber_step
  cases safe_float (vGet ed (Key.s "FNumber")) with
  | none => rfl
  | some f => rw [dlookup_dset, if_neg (Ne.symm h)]

/-- One cleanup iteration touches no key other than its own. -/
theorem dlookup_cleanup_one (ed : Dict) (kc k : Key) (h : k ≠ kc) :
    dlookup (cleanup_one ed kc) k = dlookup ed k := by
  unfold cleanup_one
  cases dlookup ed kc with
  | none => rfl
  | some v =>
    by_cases ht : pyTruthy v
    · simp only [ht, if_true]
      rw [dlookup_dset, if_neg (Ne.symm h)]
    · simp [ht]

/-- The cleanup loop touches only `Make`, `Model` and `Software`. -/
theorem dlookup_cleanup_step (ed : Dict) (k : Key)
    (h1 : k ≠ Key.s "Make") (h2 : k ≠ Key.s "Model") (h3 : k ≠ Key.s "Software") :
    dlookup (cleanup_step ed) k = dlookup ed k := by
  unfold cleanup_step
  rw [dlookup_cleanup_one _ _ _ h3, dlookup_cleanup_one _ _ _ h2, dlookup_cleanup_one _ _ _ h1]

/-- The tag-resolution table never produces the synthetic keys added by the
later pipeline steps. -/
theorem resolveTag_not_synthetic (id : Int) :
    resolveTag id ≠ Key.s "GPS" ∧ resolveTag id ≠ Key.s "ExposureTimeFormatted" ∧
    resolveTag id ≠ Key.s "FocalLengthFormatted" ∧ resolveTag id ≠ Key.s "FNumberFormatted" := by
  unfold resolveTag TAGS
  split_ifs <;> simp

/-- The tag loop never binds a key outside the resolution table's range and
the raw ids. -/
theorem dlookup_build_dicts_fst (tags : List (Int × PyVal)) (ed gi : Dict) (k : Key)
    (hk : ∀ id : Int, resolveTag id ≠ k) :
    dlookup (build_dicts tags ed gi).1 k = dlookup ed k := by
  induction tags generalizing ed gi with
  | nil => rfl
  | cons hd tl ih =>
    obtain ⟨id, data⟩ := hd
    unfold build_dicts
    by_cases hg : resolveTag id = Key.s "GPSInfo"
    · simp only [hg, if_true]
      exact ih ed (gps_merge gi data)
    · simp only [hg, if_false]
      rw [ih, dlookup_dset]
      simp [hk id]

/-- Integer division by one in `Q` yields the unit-denominator fraction. -/
theorem q_intCast_div_one (n : Int) : ((n : Q) / ((1 : Int) : Q)) = ⟨n, 1⟩ := by
  show qmk (n * 1) (1 * 1) = ⟨n, 1⟩
  norm_num [qmk]

/-- C2: for every rational tag value, the serialization normalizer maps a
zero denominator to the integer `0` (the `ZeroDivisionError` handler) and a
non-zero denominator to the finite float `n/d`; it is total, so it never
raises, and its numeric outputs are exact finite fractions — never
`NaN`/`Inf`. -/
theorem convert_to_serializable_rational (n d : Int) :
    convert_to_serializable (.rat n d) =
      if d = 0 then .int 0 else .float ((n : Q) / (d : Q)) := rfl

/-- C4: the sexagesimal-to-decimal conversion returns exactly
`deg + min/60 + sec/3600`, negated precisely when the reference is `"S"` or
`"W"`, and unchanged for any other reference (including `"N"`/`"E"`). -/
theorem decimal_coords_formula (d m s : Q) (ref : String) :
    decimal_coords (.list (.cons (.float d) (.cons (.float m) (.cons (.float s) .nil))))
        (.str ref) =
      some (if ref = "S" ∨ ref = "W" then -(d + m / 60 + s / 3600)
            else d + m / 60 + s / 3600) := by
  unfold decimal_coords pyFloat
  by_cases h1 : ref = "S"
  · simp [h1]
  · by_cases h2 : ref = "W" <;> simp [h1, h2]

/-- C9: the serialization normalizer is idempotent up to Python `==`: a
second pass returns a value Python deems equal to the first pass's result
(the one non-structural case being a zero-denominator rational, whose first
pass yields the int `0` and whose second pass yields the float `0.0`, and
`0 == 0.0` holds in Python). -/
theorem convert_to_serializable_idempotent (x : PyVal) :
    pyEq (convert_to_serializable (convert_to_serializable x))
      (convert_to_serializable x) = true :=
  convIdemVal x

/-- C10: a plain integer exposes `numerator`/`denominator` attributes, so
the normalizer's rational branch captures it and returns the float `n/1` —
never the integer itself — at top level, inside lists and inside mappings;
in particular an integer ISO tag is serialized as a float. -/
theorem convert_to_serializable_int_becomes_float (n m : Int) (xs : PyList) (k : Key)
    (kvs : PyDict) :
    convert_to_serializable (.int n) = .float ⟨n, 1⟩ ∧
    convert_to_serializable (.int n) ≠ .int m ∧
    convList (.cons (.int n) xs) = .cons (.float ⟨n, 1⟩) (convList xs) ∧
    convDict (.cons k (.int n) kvs) = .cons k (.float ⟨n, 1⟩) (convDict kvs) ∧
    extract_exif_data (.exif [(34855, .int 400)]) =
      [(Key.s "ISOSpeedRatings", .float ⟨400, 1⟩)] := by
  refine ⟨?_, ?_, ?_, ?_, by decide⟩
  · simp [convert_to_serializable, q_intCast_div_one]
  · simp [convert_to_serializable]
  · simp [convList, convert_to_serializable, q_intCast_div_one]
  · simp [convDict, convert_to_serializable, q_intCast_div_one]

/-- A strictly positive fraction is not the zero value. -/
theorem Q.isZero_false_of_pos (q : Q) (h : (0 : Q) < q) : q.isZero = false := by
  have hb : Q.blt 0 q = true := h
  have hb2 : (0 : Int) * q.den < q.num * 1 := of_decide_eq_true hb
  rw [Int.zero_mul, Int.mul_one] at hb2
  have : q.num ≠ 0 := by omega
  simp [Q.isZero, this]

/-- C5 counterexample: at the positive exposure time `t = 0.625 < 1` the
code renders `"1/1"` — `int(1/t)` truncates `1.6` to `1` — whereas the
claimed `"1/{round(1/t)}"` would be `"1/2"` (`round` is half-to-even, so
`round(1.6) = 2`). -/
theorem format_exposure_time_truncates_not_rounds :
    format_exposure_time (.float (5 / 8)) = "1/1" ∧
    ((5 : Q) / 8 < 1) ∧
    qRoundHalfEven (1 / ((5 : Q) / 8)) = 2 ∧
    format_exposure_time (.float (5 / 8)) ≠
      "1/" ++ toString (qRoundHalfEven (1 / ((5 : Q) / 8))) := by
  refine ⟨by decide, by decide, by decide, by decide⟩

/-- C5 (amended): for every positive exposure time `t`, if `t < 1` the
display string is `"1/{int(1/t)}"` with `int` truncating toward zero (not
rounding); otherwise `t` is rendered with one decimal place; in particular
`0.005` yields `"1/200"` and `2.0` yields `"2.0"`. -/
theorem format_exposure_time_spec :
    (∀ q : Q, 0 < q →
      format_exposure_time (.float q) =
        if q < 1 then "1/" ++ toString (Q.truncI (1 / q)) else formatFixed 1 q) ∧
    format_exposure_time (.float (1 / 200)) = "1/200" ∧
    format_exposure_time (.float 2) = "2.0" := by
  refine ⟨?_, by decide, by decide⟩
  intro q hq
  unfold format_exposure_time pyFloat
  by_cases hlt : q < 1
  · simp [hlt, Q.isZero_false_of_pos q hq]
  · simp [hlt]

/-- C5 witness: the amended specification applied at the concrete exposure
time `0.005`. -/
theorem format_exposure_time_spec_witness :
    (0 : Q) < 1 / 200 ∧
    format_exposure_time (.float (1 / 200)) =
      (if (1 : Q) / 200 < 1 then "1/" ++ toString (Q.truncI (1 / ((1 : Q) / 200)))
       else formatFixed 1 ((1 : Q) / 200)) :=
  ⟨by decide, format_exposure_time_spec.1 (1 / 200) (by decide)⟩

/-- C6 counterexample: on the malformed date string `"2024-11-06"` the
extraction does not leave `captured_at` unset — the raw, unparsed string is
retained under `DateTimeOriginal` in the returned record. -/
theorem extract_retains_malformed_date :
    extract_exif_data (.exif [(36867, .str "2024-11-06")]) =
      [(Key.s "DateTimeOriginal", .str "2024-11-06")] ∧
    dlookup (extract_exif_data (.exif [(36867, .str "2024-11-06")]))
      (Key.s "DateTimeOriginal") = some (.str "2024-11-06") := by
  refine ⟨by decide, by decide⟩

/-- C6 (amended): the raw tag `"2024:11:06 14:30:22"` is normalized to
`"2024-11-06 14:30:22"`; on any malformed date value the date step raises
no exception and leaves the whole record unchanged — the field keeps its
raw value rather than being unset — and the date step never touches any
other field, so extraction of the remaining fields is unaffected. -/
theorem date_parse_spec :
    extract_exif_data (.exif [(36867, .str "2024:11:06 14:30:22")]) =
      [(Key.s "DateTimeOriginal", .str "2024-11-06 14:30:22")] ∧
    (∀ (ed : Dict) (v : PyVal),
      dlookup ed (Key.s "DateTimeOriginal") = some v →
      parseDT ':' (pyStr v) = Option.none → date_step ed = ed) ∧
    (∀ (ed : Dict) (k : Key), k ≠ Key.s "DateTimeOriginal" →
      dlookup (date_step ed) k = dlookup ed k) := by
  refine ⟨by decide, ?_, dlookup_date_step⟩
  intro ed v hdl hparse
  unfold date_step
  rw [hdl]
  by_cases ht : pyTruthy v
  · simp [ht, hparse]
  · simp [ht]

/-- C6 witness: the amended specification applied to a record holding the
malformed date `"2024-11-06"` and to an unrelated `Make` field. -/
theorem date_parse_spec_witness :
    (dlookup [(Key.s "DateTimeOriginal", PyVal.str "2024-11-06")]
        (Key.s "DateTimeOriginal") = some (PyVal.str "2024-11-06")) ∧
    (parseDT ':' (pyStr (PyVal.str "2024-11-06")) = Option.none) ∧
    date_step [(Key.s "DateTimeOriginal", PyVal.str "2024-11-06")] =
      [(Key.s "DateTimeOriginal", PyVal.str "2024-11-06")] ∧
    (Key.s "Make" ≠ Key.s "DateTimeOriginal") ∧
    dlookup (date_step [(Key.s "Make", PyVal.str "Canon")]) (Key.s "Make") =
      dlookup [(Key.s "Make", PyVal.str "Canon")] (Key.s "Make") :=
  ⟨by decide, by decide,
   date_parse_spec.2.1 [(Key.s "DateTimeOriginal", PyVal.str "2024-11-06")]
     (PyVal.str "2024-11-06") (by decide) (by decide),
   by decide,
   date_parse_spec.2.2 [(Key.s "Make", PyVal.str "Canon")] (Key.s "Make") (by decide)⟩

/-- C7 counterexample: the fallback caption at index 4 is the Chinese
`"照片 5"`, not the claimed literal `"Photo 5"`. -/
theorem caption_fallback_is_chinese :
    default_caption [] 4 = "照片 5" ∧ "照片 5" ≠ "Photo 5" := by
  refine ⟨by decide, by decide⟩

/-- C7 (amended): with no `DateTimeOriginal` the caption for 0-based index
`i` is `"照片 {i+1}"` (1-based; `照片` is Chinese for "photo"), so index 4
yields `"照片 5"`; with a parseable normalized timestamp the caption is its
short date/time rendering `"%m月%d日 %H:%M"`. -/
theorem caption_spec :
    (∀ (d : Dict) (i : Nat), dlookup d (Key.s "DateTimeOriginal") = Option.none →
      default_caption d i = "照片 " ++ toString (i + 1)) ∧
    default_caption [] 4 = "照片 5" ∧
    (∀ (d : Dict) (i : Nat) (s : String) (dt : DT),
      dlookup d (Key.s "DateTimeOriginal") = some (.str s) →
      parseDT '-' s = some dt →
      default_caption d i = fmtCaption dt) := by
  refine ⟨?_, by decide, ?_⟩
  · intro d i hdl
    unfold default_caption truthyGet
    rw [hdl]
  · intro d i s dt hdl hparse
    have hs : s ≠ "" := by
      intro he
      subst he
      rw [show parseDT '-' "" = Option.none from by decide] at hparse
      exact Option.noConfusion hparse
    unfold default_caption truthyGet
    rw [hdl]
    simp [pyTruthy, hs, hparse]

/-- C7 witness: the amended specification applied at the empty record with
index 4 and at a record carrying `"2024-11-06 14:30:22"`. -/
theorem caption_spec_witness :
    (dlookup ([] : Dict) (Key.s "DateTimeOriginal") = Option.none) ∧
    default_caption [] 4 = "照片 " ++ toString (4 + 1) ∧
    (dlookup [(Key.s "DateTimeOriginal", PyVal.str "2024-11-06 14:30:22")]
        (Key.s "DateTimeOriginal") = some (PyVal.str "2024-11-06 14:30:22")) ∧
    (parseDT '-' "2024-11-06 14:30:22" = some ⟨2024, 11, 6, 14, 30, 22⟩) ∧
    default_caption [(Key.s "DateTimeOriginal", PyVal.str "2024-11-06 14:30:22")] 0 =
      fmtCaption ⟨2024, 11, 6, 14, 30, 22⟩ :=
  ⟨by decide, caption_spec.1 [] 4 (by decide), by decide, by decide,
   caption_spec.2.2 [(Key.s "DateTimeOriginal", PyVal.str "2024-11-06 14:30:22")] 0
     "2024-11-06 14:30:22" ⟨2024, 11, 6, 14, 30, 22⟩ (by decide) (by decide)⟩

/-- A failing date parse leaves the record exactly as it was. -/
theorem date_step_eq_of_parse_fail (ed : Dict) (v : PyVal)
    (hdl : dlookup ed (Key.s "DateTimeOriginal") = some v)
    (hparse : parseDT ':' (pyStr v) = Option.none) : date_step ed = ed := by
  unfold date_step
  rw [hdl]
  by_cases ht : pyTruthy v
  · simp [ht, hparse]
  · simp [ht]

/-- A failed GPS conversion leaves the record exactly as it was. -/
theorem gps_step_eq_of_none (gi ed : Dict)
    (h : get_gps_coordinates gi = (Option.none, Option.none)) : gps_step gi ed = ed := by
  unfold gps_step
  by_cases hg : gi.isEmpty
  · rw [if_pos hg]
  · rw [if_neg hg, h]

/-- C1: the extraction is a total function on every image outcome —
an unreadable image and an image without EXIF both yield the empty record —
and per-field failures are isolated: a failing date parse and a failing GPS
conversion each leave the record untouched (no early abort), and the date
and GPS steps never modify any binding other than their own field, so a
failure in one field cannot affect the extraction of the others. -/
theorem extract_exif_data_total_and_isolated :
    (extract_exif_data .openFail = [] ∧ extract_exif_data .noExif = []) ∧
    (∀ (ed : Dict) (v : PyVal),
      dlookup ed (Key.s "DateTimeOriginal") = some v →
      parseDT ':' (pyStr v) = Option.none → date_step ed = ed) ∧
    (∀ gi ed : Dict, get_gps_coordinates gi = (Option.none, Option.none) →
      gps_step gi ed = ed) ∧
    (∀ (ed : Dict) (k : Key), k ≠ Key.s "DateTimeOriginal" →
      dlookup (date_step ed) k = dlookup ed k) ∧
    (∀ (gi ed : Dict) (k : Key), k ≠ Key.s "GPS" →
      dlookup (gps_step gi ed) k = dlookup ed k) :=
  ⟨⟨rfl, rfl⟩, date_step_eq_of_parse_fail, gps_step_eq_of_none,
   dlookup_date_step, dlookup_gps_step⟩

/-- C1 witness: the isolation properties applied at a record holding a
malformed date and an unrelated `Make` field, and at a GPS map missing its
latitude. -/
theorem extract_exif_data_total_and_isolated_witness :
    (dlookup [(Key.s "DateTimeOriginal", PyVal.str "not a date")]
        (Key.s "DateTimeOriginal") = some (PyVal.str "not a date")) ∧
    (parseDT ':' (pyStr (PyVal.str "not a date")) = Option.none) ∧
    date_step [(Key.s "DateTimeOriginal", PyVal.str "not a date")] =
      [(Key.s "DateTimeOriginal", PyVal.str "not a date")] ∧
    (get_gps_coordinates [(Key.s "GPSLatitudeRef", PyVal.str "N")] =
      (Option.none, Option.none)) ∧
    gps_step [(Key.s "GPSLatitudeRef", PyVal.str "N")] [(Key.s "Make", PyVal.str "Canon")] =
      [(Key.s "Make", PyVal.str "Canon")] ∧
    (Key.s "Make" ≠ Key.s "GPS") ∧
    dlookup (gps_step [(Key.s "GPSLatitudeRef", PyVal.str "N")]
        [(Key.s "Make", PyVal.str "Canon")]) (Key.s "Make") =
      dlookup [(Key.s "Make", PyVal.str "Canon")] (Key.s "Make") :=
  ⟨by decide, by decide,
   extract_exif_data_total_and_isolated.2.1
     [(Key.s "DateTimeOriginal", PyVal.str "not a date")] (PyVal.str "not a date")
     (by decide) (by decide),
   by decide,
   extract_exif_data_total_and_isolated.2.2.1
     [(Key.s "GPSLatitudeRef", PyVal.str "N")] [(Key.s "Make", PyVal.str "Canon")] (by decide),
   by decide,
   extract_exif_data_total_and_isolated.2.2.2.2
     [(Key.s "GPSLatitudeRef", PyVal.str "N")] [(Key.s "Make", PyVal.str "Canon")]
     (Key.s "Make") (by decide)⟩

/-- The GPS-failure conditions of the claim: one of the four required
sub-tags is missing from `gps_info`, or one of the two coordinate
conversions fails. -/
@[reducible] def gpsIncomplete (gi : Dict) : Prop :=
  dlookup gi (Key.s "GPSLatitude") = Option.none ∨
  dlookup gi (Key.s "GPSLatitudeRef") = Option.none ∨
  dlookup gi (Key.s "GPSLongitude") = Option.none ∨
  dlookup gi (Key.s "GPSLongitudeRef") = Option.none ∨
  decimal_coords (vGet gi (Key.s "GPSLatitude")) (vGet gi (Key.s "GPSLatitudeRef")) =
    Option.none ∨
  decimal_coords (vGet gi (Key.s "GPSLongitude")) (vGet gi (Key.s "GPSLongitudeRef")) =
    Option.none

/-- A truthy lookup cannot be a missing key. -/
theorem dlookup_ne_none_of_tGet (gi : Dict) (k : Key) (h : tGet gi k = true) :
    dlookup gi k ≠ Option.none := by
  unfold tGet at h
  cases hdl : dlookup gi k with
  | none => rw [hdl] at h; exact absurd h (by simp)
  | some v => simp

/-- An incomplete or unconvertible GPS map yields `(None, None)`. -/
theorem get_gps_of_incomplete (gi : Dict) (h : gpsIncomplete gi) :
    get_gps_coordinates gi = (Option.none, Option.none) := by
  unfold get_gps_coordinates
  by_cases hc : (tGet gi (.s "GPSLatitude") && tGet gi (.s "GPSLatitudeRef") &&
      tGet gi (.s "GPSLongitude") && tGet gi (.s "GPSLongitudeRef")) = true
  · rw [if_pos hc]
    simp only [Bool.and_eq_true] at hc
    obtain ⟨⟨⟨h1, h2⟩, h3⟩, h4⟩ := hc
    rcases h with h | h | h | h | h | h
    · exact absurd h (dlookup_ne_none_of_tGet _ _ h1)
    · exact absurd h (dlookup_ne_none_of_tGet _ _ h2)
    · exact absurd h (dlookup_ne_none_of_tGet _ _ h3)
    · exact absurd h (dlookup_ne_none_of_tGet _ _ h4)
    · rw [h]
    · rw [h]
      cases decimal_coords (vGet gi (.s "GPSLatitude")) (vGet gi (.s "GPSLatitudeRef")) <;>
        rfl
  · rw [if_neg hc]

/-- C3: whenever one of the four required GPS sub-tags is missing or a
coordinate conversion fails, the extracted record has no `GPS` entry at
all; and the GPS step can only ever add the complete three-field GPS
object (latitude, longitude, rendered coordinates) — a partially populated
GPS object is never produced. -/
theorem gps_all_or_nothing :
    (∀ tags : List (Int × PyVal),
      gpsIncomplete (build_dicts tags [] []).2 →
      dlookup (extract_exif_data (.exif tags)) (Key.s "GPS") = Option.none) ∧
    (∀ gi ed : Dict, dlookup ed (Key.s "GPS") = Option.none →
      dlookup (gps_step gi ed) (Key.s "GPS") = Option.none ∨
      ∃ lat lon : Q, dlookup (gps_step gi ed) (Key.s "GPS") = some (gpsShape lat lon)) := by
  constructor
  · intro tags h
    have hgps := get_gps_of_incomplete _ h
    unfold extract_exif_data
    rw [dlookup_cleanup_step _ _ (by decide) (by decide) (by decide),
        dlookup_fnumber_step _ _ (by decide), dlookup_focal_step _ _ (by decide),
        dlookup_exposure_step _ _ (by decide), gps_step_eq_of_none _ _ hgps,
        dlookup_date_step _ _ (by decide),
        dlookup_build_dicts_fst _ _ _ _ (fun id => (resolveTag_not_synthetic id).1)]
    rfl
  · intro gi ed hnone
    unfold gps_step
    by_cases hg : gi.isEmpty
    · rw [if_pos hg]
      exact Or.inl hnone
    · rw [if_neg hg]
      rcases hc : get_gps_coordinates gi with ⟨a, b⟩
      cases a with
      | none => exact Or.inl hnone
      | some lat =>
        cases b with
        | none => exact Or.inl hnone
        | some lon =>
          right
          exact ⟨lat, lon, by rw [dlookup_dset, if_pos rfl]⟩

/-- C3 witness: a GPS map carrying only a latitude reference (latitude
itself missing) yields a record with no `GPS` entry, and the GPS step on an
empty map adds nothing. -/
theorem gps_all_or_nothing_witness :
    gpsIncomplete (build_dicts [(34853, PyVal.dict (.cons (Key.n 1) (.str "N") .nil))]
      [] []).2 ∧
    dlookup (extract_exif_data
        (.exif [(34853, PyVal.dict (.cons (Key.n 1) (.str "N") .nil))]))
      (Key.s "GPS") = Option.none ∧
    (dlookup ([] : Dict) (Key.s "GPS") = Option.none) ∧
    (dlookup (gps_step [] []) (Key.s "GPS") = Option.none ∨
      ∃ lat lon : Q, dlookup (gps_step [] []) (Key.s "GPS") = some (gpsShape lat lon)) :=
  ⟨by decide,
   gps_all_or_nothing.1 [(34853, PyVal.dict (.cons (Key.n 1) (.str "N") .nil))] (by decide),
   by decide,
   gps_all_or_nothing.2 [] [] (by decide)⟩

/-- A record field that may be absent, as a dictionary fragment. -/
def optEntry (k : Key) : Option PyVal → Dict
  | some v => [(k, v)]
  | Option.none => []

/-- A metadata record as produced by the extraction pipeline, assembled
from its optional fields: raw camera strings, preformatted parameter
strings, the float the ISO tag normalizes to, the normalized date string,
and the GPS pair. -/
def dictOfFields (mk md fn ex : Option String) (iso : Option Q) (foc dtv : Option String)
    (gps : Option (Q × Q)) : Dict :=
  optEntry (Key.s "Make") (mk.map .str) ++ (optEntry (Key.s "Model") (md.map .str) ++
  (optEntry (Key.s "FNumberFormatted") (fn.map .str) ++
  (optEntry (Key.s "ExposureTimeFormatted") (ex.map .str) ++
  (optEntry (Key.s "ISOSpeedRatings") (iso.map .float) ++
  (optEntry (Key.s "FocalLengthFormatted") (foc.map .str) ++
  (optEntry (Key.s "DateTimeOriginal") (dtv.map .str) ++
  optEntry (Key.s "GPS") (gps.map fun p => gpsShape p.1 p.2)))))))

/-- A field's contribution to a section: one rendered element when
present, nothing when absent. -/
def optList (o : Option String) (g : String → String) : List String :=
  match o with
  | some u => [g u]
  | Option.none => []

/-- The camera section of the specification's summary: present exactly
when both make and model are present (non-empty after stripping). -/
def camera_expected (mk md : Option String) : List String :=
  match mk, md with
  | some a, some b => ["📷 " ++ sTrim (sTrim a ++ " " ++ sTrim b)]
  | _, _ => []

/-- The parameter section of the specification's summary: omitted exactly
when no component is present, otherwise the pipe-join of the components. -/
def params_expected (ps : List String) : List String :=
  match ps with
  | [] => []
  | _ :: _ => ["⚙️ " ++ sIntercalate " | " ps]

/-- The location section of the specification's summary. -/
def gps_expected (gps : Option (Q × Q)) : List String :=
  match gps with
  | some p => ["📍 " ++ (formatFixed 6 p.1 ++ ", " ++ formatFixed 6 p.2)]
  | Option.none => []

/-- The display summary as the specification describes it, amended to the
code's camera rule: the sections that have data are concatenated with
single line breaks in the fixed order camera, shooting parameters,
timestamp, location; the camera section requires *both* make and model;
the parameter section pipe-joins the present components (aperture, shutter
with an `"s"` suffix, `"ISO"` + value, focal length) and is omitted exactly
when all four are absent; the timestamp and location sections are omitted
exactly when their field is absent. -/
def expectedDisplay (mk md fn ex : Option String) (iso : Option Q) (foc dtv : Option String)
    (gps : Option (Q × Q)) : String :=
  sIntercalate "\n"
    (camera_expected mk md ++
     params_expected
       (optList fn (fun u => u) ++ optList ex (fun u => u ++ "s") ++
        optList (iso.map floatStr) (fun u => "ISO" ++ u) ++ optList foc (fun u => u)) ++
     optList dtv (fun u => "📅 " ++ u) ++ gps_expected gps)

theorem sTrim_nil : sTrim "" = "" := rfl

/-- The wrapper's empty-record short-circuit agrees with the body. -/
theorem format_eq_core (d : Dict) : format_exif_for_display d = format_display_core d := by
  unfold format_exif_for_display
  cases d with
  | nil => decide
  | cons h t => rfl

theorem dlookup_append (d₁ d₂ : Dict) (k : Key) :
    dlookup (d₁ ++ d₂) k =
      match dlookup d₁ k with
      | some v => some v
      | Option.none => dlookup d₂ k := by
  induction d₁ with
  | nil => rfl
  | cons hd tl ih =>
    obtain ⟨k₀, v₀⟩ := hd
    by_cases h : k₀ = k <;> simp [dlookup, h, ih]

theorem dlookup_optEntry_self (k : Key) (v : Option PyVal) : dlookup (optEntry k v) k = v := by
  cases v <;> simp [optEntry, dlookup]

theorem dlookup_optEntry_ne (k k' : Key) (v : Option PyVal) (h : ¬k = k') :
    dlookup (optEntry k v) k' = Option.none := by
  cases v <;> simp [optEntry, dlookup, h]

theorem dlookup_dof_make (mk md fn ex : Option String) (iso : Option Q)
    (foc dtv : Option String) (gps : Option (Q × Q)) :
    dlookup (dictOfFields mk md fn ex iso foc dtv gps) (Key.s "Make") =
      mk.map PyVal.str := by
  cases mk <;>
    simp [dictOfFields, dlookup_append, dlookup_optEntry_self, dlookup_optEntry_ne]

theorem dlookup_dof_model (mk md fn ex : Option String) (iso : Option Q)
    (foc dtv : Option String) (gps : Option (Q × Q)) :
    dlookup (dictOfFields mk md fn ex iso foc dtv gps) (Key.s "Model") =
      md.map PyVal.str := by
  cases md <;>
    simp [dictOfFields, dlookup_append, dlookup_optEntry_self, dlookup_optEntry_ne]

theorem dlookup_dof_fn (mk md fn ex : Option String) (iso : Option Q)
    (foc dtv : Option String) (gps : Option (Q × Q)) :
    dlookup (dictOfFields mk md fn ex iso foc dtv gps) (Key.s "FNumberFormatted") =
      fn.map PyVal.str := by
  cases fn <;>
    simp [dictOfFields, dlookup_append, dlookup_optEntry_self, dlookup_optEntry_ne]

theorem dlookup_dof_ex (mk md fn ex : Option String) (iso : Option Q)
    (foc dtv : Option String) (gps : Option (Q × Q)) :
    dlookup (dictOfFields mk md fn ex iso foc dtv gps) (Key.s "ExposureTimeFormatted") =
      ex.map PyVal.str := by
  cases ex <;>
    simp [dictOfFields, dlookup_append, dlookup_optEntry_self, dlookup_optEntry_ne]

theorem dlookup_dof_iso (mk md fn ex : Option String) (iso : Option Q)
    (foc dtv : Option String) (gps : Option (Q × Q)) :
    dlookup (dictOfFields mk md fn ex iso foc dtv gps) (Key.s "ISOSpeedRatings") =
      iso.map PyVal.float := by
  cases iso <;>
    simp [dictOfFields, dlookup_append, dlookup_optEntry_self, dlookup_optEntry_ne]

theorem dlookup_dof_foc (mk md fn ex : Option String) (iso : Option Q)
    (foc dtv : Option String) (gps : Option (Q × Q)) :
    dlookup (dictOfFields mk md fn ex iso foc dtv gps) (Key.s "FocalLengthFormatted") =
      foc.map PyVal.str := by
  cases foc <;>
    simp [dictOfFields, dlookup_append, dlookup_optEntry_self, dlookup_optEntry_ne]

theorem dlookup_dof_dtv (mk md fn ex : Option String) (iso : Option Q)
    (foc dtv : Option String) (gps : Option (Q × Q)) :
    dlookup (dictOfFields mk md fn ex iso foc dtv gps) (Key.s "DateTimeOriginal") =
      dtv.map PyVal.str := by
  cases dtv <;>
    simp [dictOfFields, dlookup_append, dlookup_optEntry_self, dlookup_optEntry_ne]

theorem dlookup_dof_gps (mk md fn ex : Option String) (iso : Option Q)
    (foc dtv : Option String) (gps : Option (Q × Q)) :
    dlookup (dictOfFields mk md fn ex iso foc dtv gps) (Key.s "GPS") =
      gps.map (fun p => gpsShape p.1 p.2) := by
  cases gps <;>
    simp [dictOfFields, dlookup_append, dlookup_optEntry_self, dlookup_optEntry_ne]

theorem strip_get_dof_make (mk md fn ex : Option String) (iso : Option Q)
    (foc dtv : Option String) (gps : Option (Q × Q)) :
    strip_get (dictOfFields mk md fn ex iso foc dtv gps) (Key.s "Make") =
      some (sTrim (mk.getD "")) := by
  unfold strip_get
  rw [dlookup_dof_make]
  cases mk <;> rfl

theorem strip_get_dof_model (mk md fn ex : Option String) (iso : Option Q)
    (foc dtv : Option String) (gps : Option (Q × Q)) :
    strip_get (dictOfFields mk md fn ex iso foc dtv gps) (Key.s "Model") =
      some (sTrim (md.getD "")) := by
  unfold strip_get
  rw [dlookup_dof_model]
  cases md <;> rfl

/-- A string field whose present values are non-empty passes the truthiness
gate untouched. -/
theorem truthyGet_of_map_str (d : Dict) (k : Key) (o : Option String)
    (hl : dlookup d k = o.map PyVal.str) (hne : ∀ u, o = some u → u ≠ "") :
    truthyGet d k = o.map PyVal.str := by
  unfold truthyGet
  rw [hl]
  cases o with
  | none => rfl
  | some u => simp [pyTruthy, hne u rfl]

theorem truthyGet_dof_iso (mk md fn ex : Option String) (iso : Option Q)
    (foc dtv : Option String) (gps : Option (Q × Q))
    (hiso : ∀ q, iso = some q → q.isZero = false) :
    truthyGet (dictOfFields mk md fn ex iso foc dtv gps) (Key.s "ISOSpeedRatings") =
      iso.map PyVal.float := by
  unfold truthyGet
  rw [dlookup_dof_iso]
  cases iso with
  | none => rfl
  | some q => simp [pyTruthy, hiso q rfl]

theorem truthyGet_dof_gps (mk md fn ex : Option String) (iso : Option Q)
    (foc dtv : Option String) (gps : Option (Q × Q)) :
    truthyGet (dictOfFields mk md fn ex iso foc dtv gps) (Key.s "GPS") =
      gps.map (fun p => gpsShape p.1 p.2) := by
  unfold truthyGet
  rw [dlookup_dof_gps]
  cases gps with
  | none => rfl
  | some p => simp [pyTruthy, gpsShape]

/-- Joining actual strings never raises and agrees with plain
intercalation. -/
theorem joinStrs_map_str (sep : String) (l : List String) :
    joinStrs sep (List.map PyVal.str l) = some (sIntercalate sep l) := by
  induction l with
  | nil => rfl
  | cons a t ih =>
    cases t with
    | nil => rfl
    | cons b r =>
      have h1 : joinStrs sep (List.map PyVal.str (a :: b :: r)) =
          match joinStrs sep (List.map PyVal.str (b :: r)) with
          | some rr => some (a ++ sep ++ rr)
          | Option.none => Option.none := rfl
      rw [h1, ih]
      rfl

/-- The camera section produced from stripped raw fields, as a function of
the fields' presence (present values assumed non-empty after stripping, as
the pipeline's trimmed strings are). -/
theorem camera_section_bridge (mk md : Option String)
    (hmk : ∀ a, mk = some a → sTrim a ≠ "") (hmd : ∀ b, md = some b → sTrim b ≠ "") :
    camera_section (sTrim (mk.getD "")) (sTrim (md.getD "")) = camera_expected mk md := by
  cases mk with
  | none => cases md <;> simp [camera_section, camera_expected, sTrim_nil]
  | some a =>
    cases md with
    | none => simp [camera_section, camera_expected, sTrim_nil]
    | some b => simp [camera_section, camera_expected, hmk a rfl, hmd b rfl]

theorem appendIf_raw (o : Option String) :
    appendIf (o.map PyVal.str) (fun v => v) = List.map PyVal.str (optList o (fun u => u)) := by
  cases o <;> rfl

theorem appendIf_shutter (o : Option String) :
    appendIf (o.map PyVal.str) (fun v => PyVal.str (pyStr v ++ "s")) =
      List.map PyVal.str (optList o (fun u => u ++ "s")) := by
  cases o <;> rfl

theorem appendIf_iso (o : Option Q) :
    appendIf (o.map PyVal.float) (fun v => PyVal.str ("ISO" ++ pyStr v)) =
      List.map PyVal.str (optList (o.map floatStr) (fun u => "ISO" ++ u)) := by
  cases o <;> rfl

theorem params_section_strs (l : List String) :
    params_section (List.map PyVal.str l) = some (params_expected l) := by
  cases l with
  | nil => rfl
  | cons a t =>
    unfold params_section
    rw [if_neg (by simp), joinStrs_map_str]
    rfl

theorem date_section_str (o : Option String) :
    date_section (o.map PyVal.str) = optList o (fun u => "📅 " ++ u) := by
  cases o <;> rfl

theorem gps_section_shape (gps : Option (Q × Q)) :
    gps_section (gps.map (fun p => gpsShape p.1 p.2)) = some (gps_expected gps) := by
  cases gps with
  | none => rfl
  | some p => simp [gps_section, gps_expected, gpsShape, pdLookup, pyStr]

/-- A successful `Make`/`Model` strip hands control to the section body. -/
theorem format_display_core_strip (d : Dict) (make model : String)
    (h1 : strip_get d (Key.s "Make") = some make)
    (h2 : strip_get d (Key.s "Model") = some model) :
    format_display_core d = display_after_strip d make model := by
  unfold format_display_core
  rw [h1, h2]

/-- C8 counterexample: a record whose `Make` is present but whose `Model`
is absent produces the empty summary — the camera section is omitted even
though not all of its constituent fields are absent, refuting the claimed
"omitted exactly when all constituents are absent". -/
theorem camera_section_needs_both :
    format_exif_for_display [(Key.s "Make", .str "Canon")] = some "" ∧
    dlookup [(Key.s "Make", PyVal.str "Canon")] (Key.s "Make") =
      some (.str "Canon") := by
  refine ⟨by decide, by decide⟩

/-- C8 (amended): on every record of the extraction pipeline's shape (the
formatted fields being non-empty strings when present, the ISO a non-zero
float, the GPS object complete), the display summary is exactly the
fixed-order line-break concatenation described by `expectedDisplay`: camera
(requiring *both* make and model), pipe-joined shooting parameters,
timestamp, location, each omitted when its data is absent. -/
theorem format_exif_for_display_spec
    (mk md fn ex : Option String) (iso : Option Q) (foc dtv : Option String)
    (gps : Option (Q × Q))
    (hmk : ∀ a, mk = some a → sTrim a ≠ "")
    (hmd : ∀ b, md = some b → sTrim b ≠ "")
    (hfn : ∀ u, fn = some u → u ≠ "")
    (hex : ∀ u, ex = some u → u ≠ "")
    (hiso : ∀ q, iso = some q → q.isZero = false)
    (hfoc : ∀ u, foc = some u → u ≠ "")
    (hdtv : ∀ u, dtv = some u → u ≠ "") :
    format_exif_for_display (dictOfFields mk md fn ex iso foc dtv gps) =
      some (expectedDisplay mk md fn ex iso foc dtv gps) := by
  rw [format_eq_core,
      format_display_core_strip _ _ _ (strip_get_dof_make mk md fn ex iso foc dtv gps)
        (strip_get_dof_model mk md fn ex iso foc dtv gps)]
  unfold display_after_strip
  rw [truthyGet_of_map_str _ _ fn (dlookup_dof_fn mk md fn ex iso foc dtv gps) hfn,
      truthyGet_of_map_str _ _ ex (dlookup_dof_ex mk md fn ex iso foc dtv gps) hex,
      truthyGet_of_map_str _ _ foc (dlookup_dof_foc mk md fn ex iso foc dtv gps) hfoc,
      truthyGet_of_map_str _ _ dtv (dlookup_dof_dtv mk md fn ex iso foc dtv gps) hdtv,
      truthyGet_dof_iso mk md fn ex iso foc dtv gps hiso,
      truthyGet_dof_gps mk md fn ex iso foc dtv gps,
      camera_section_bridge mk md hmk hmd,
      appendIf_raw fn, appendIf_shutter ex, appendIf_iso iso, appendIf_raw foc,
      ← List.map_append, ← List.map_append, ← List.map_append]
  dsimp only
  rw [params_section_strs, date_section_str, gps_section_shape]
  rfl

/-- C8 witness: the amended specification applied at a fully populated
concrete record. -/
theorem format_exif_for_display_spec_witness :
    format_exif_for_display (dictOfFields (some "Canon") (some "EOS R5") (some "f/1.8")
        (some "1/200") (some ⟨400, 1⟩) (some "50mm") (some "2024-11-06 14:30:22")
        (some (⟨399042, 10000⟩, ⟨1164074, 10000⟩))) =
      some (expectedDisplay (some "Canon") (some "EOS R5") (some "f/1.8")
        (some "1/200") (some ⟨400, 1⟩) (some "50mm") (some "2024-11-06 14:30:22")
        (some (⟨399042, 10000⟩, ⟨1164074, 10000⟩))) :=
  format_exif_for_display_spec (some "Canon") (some "EOS R5") (some "f/1.8")
    (some "1/200") (some ⟨400, 1⟩) (some "50mm") (some "2024-11-06 14:30:22")
    (some (⟨399042, 10000⟩, ⟨1164074, 10000⟩))
    (fun a ha => by injection ha with h; subst h; decide)
    (fun b hb => by injection hb with h; subst h; decide)
    (fun u hu => by injection hu with h; subst h; decide)
    (fun u hu => by injection hu with h; subst h; decide)
    (fun q hq => by injection hq with h; subst h; decide)
    (fun u hu => by injection hu with h; subst h; decide)
    (fun u hu => by injection hu with h; subst h; decide)


end CreateAlbum
